import Mathlib

/-!
Shallow embedding of the seat-reservation core of the flickr-fix movie
booking application.

Sources embedded here:
* `src/src/pages/SeatSelection.tsx` — seat layout expansion
  (`fetchShowtimeAndSeats`), selection toggling (`toggleSeat`), the booking
  submission (`handleBooking`), and the render-time seat state classes.
* `src/unnamed/part_001` — the database schema, in particular the
  `bookings` and `booked_seats` tables and the
  `UNIQUE(showtime_id, seat_label)` constraint on `booked_seats`.

Machine-level details that do not affect the verified properties (UUIDs,
timestamps, row-level security) are abstracted: identifiers are strings or
naturals, prices are rationals (the schema's `DECIMAL(10,2)`).
-/

namespace FlickrFix

/-- A row descriptor of a hall layout, as stored in
`theater_halls.seat_layout` and consumed by `fetchShowtimeAndSeats`:
`{ row: string, cols: integer, type: string }`.  `cols` is an `Int`
because the JSON field is an arbitrary integer; `type` is an `Option`
because the JSON field may be absent. -/
structure RowDesc where
  row : String
  cols : Int
  type : Option String
  deriving Repr, DecidableEq

/-- A seat as built by `fetchShowtimeAndSeats` (the `Seat` interface of
`SeatSelection.tsx`): label, row, column, type and booked flag. -/
structure Seat where
  label : String
  row : String
  col : Nat
  type : Option String
  isBooked : Bool
  deriving Repr, DecidableEq

/-- The seats generated for one row descriptor: the TS loop
`for (let col = 1; col <= rowData.cols; col++)` with
`seatLabel = rowData.row + col` and
`isBooked = bookedSeatLabels.has(seatLabel)`.  A non-positive `cols`
makes the loop body never run (`Int.toNat` of a non-positive is `0`). -/
def rowSeats (bookedSeatLabels : List String) (rowData : RowDesc) : List Seat :=
  (List.range rowData.cols.toNat).map (fun i =>
    let col := i + 1
    let seatLabel := rowData.row ++ toString col
    { label := seatLabel
      row := rowData.row
      col := col
      type := rowData.type
      isBooked := bookedSeatLabels.contains seatLabel })

/-- The full seat expansion of `fetchShowtimeAndSeats`: the
`layout.seats.forEach` loop pushing the seats of every row in
declaration order. -/
def expandSeats (bookedSeatLabels : List String) (layout : List RowDesc) : List Seat :=
  (layout.map (rowSeats bookedSeatLabels)).flatten

/-- `toggleSeat` from `SeatSelection.tsx`: a no-op on a booked seat,
otherwise remove the label if present, append it if absent. -/
def toggleSeat (seatLabel : String) (isBooked : Bool) (prev : List String) : List String :=
  if isBooked then prev
  else if prev.contains seatLabel then prev.filter (fun s => s ≠ seatLabel)
  else prev ++ [seatLabel]

/-- The three style-class conditions of the seat button in the
`SeatSelection` render (lines 232–234 of `SeatSelection.tsx`), in source
order: `seat.isBooked` (booked classes),
`!seat.isBooked && !selectedSeats.includes(seat.label)` (available
classes), `selectedSeats.includes(seat.label)` (selected classes). -/
def seatStateFlags (isBooked : Bool) (selectedSeats : List String) (label : String) :
    Bool × Bool × Bool :=
  (isBooked,
   !isBooked && !(selectedSeats.contains label),
   selectedSeats.contains label)

/-- A row of the `bookings` table (schema in `src/unnamed/part_001`). -/
structure Booking where
  id : Nat
  user_id : String
  showtime_id : String
  seats : List String
  total_price : ℚ
  booking_status : String
  deriving Repr, DecidableEq

/-- A row of the `booked_seats` table: one reservation record per
(showtime, seat), back-referencing its booking. -/
structure BookedSeat where
  showtime_id : String
  seat_label : String
  booking_id : Nat
  deriving Repr, DecidableEq

/-- The persistent store: the two tables the booking flow writes, plus a
counter standing for the store's fresh-id generation. -/
structure Store where
  bookings : List Booking
  booked_seats : List BookedSeat
  nextId : Nat
  deriving Repr, DecidableEq

/-- Whether the pair (showtime, seat) is already present in
`booked_seats` — the `UNIQUE(showtime_id, seat_label)` constraint. -/
def seatTaken (rows : List BookedSeat) (sid seatLabel : String) : Bool :=
  rows.any (fun b => b.showtime_id == sid && b.seat_label == seatLabel)

/-- Whether a batch insert into `booked_seats` passes the uniqueness
constraint: each row checked against the existing rows and the earlier
rows of the same batch (PostgreSQL checks the constraint row by row
within the single multi-row `INSERT`). -/
def batchOk : List BookedSeat → List BookedSeat → Bool
  | _, [] => true
  | existing, r :: rest =>
    !(seatTaken existing r.showtime_id r.seat_label) && batchOk (existing ++ [r]) rest

/-- The multi-row insert into `booked_seats`.  PostgreSQL statements are
atomic: a uniqueness violation on any row rejects the whole batch
(`none`); otherwise all rows are appended. -/
def insertBookedSeats (st : Store) (rows : List BookedSeat) : Option Store :=
  if batchOk st.booked_seats rows
  then some { st with booked_seats := st.booked_seats ++ rows }
  else none

/-- The showtime data `handleBooking` reads: the id from the route and
`ticket_price` from the fetched row. -/
structure Showtime where
  id : String
  ticket_price : ℚ
  deriving Repr, DecidableEq

/-- The client-side component state of `SeatSelection`: the React state
variables plus the current route (navigation target). -/
structure ClientState where
  user : Option String
  showtimeId : String
  showtime : Option Showtime
  seats : List Seat
  selectedSeats : List String
  loading : Bool
  route : String
  deriving Repr, DecidableEq

/-- The observable outcome of one `handleBooking` run.  `ignored` is the
silent `return` of the guard (no toast, no store access); `failed` is the
catch branch (destructive toast "Booking failed"); `success` is the
success toast followed by `navigate('/bookings')`. -/
inductive BookOutcome where
  | ignored
  | failed
  | success
  deriving Repr, DecidableEq

/-- The `bookings` row built by `handleBooking`:
`{ user_id, showtime_id, seats: selectedSeats, total_price:
ticket_price * selectedSeats.length }`, with the status defaulted to
`"confirmed"` by the schema and the store's fresh id. -/
def bookingRowFor (store : Store) (uid : String) (sh : Showtime) (cs : ClientState) : Booking :=
  { id := store.nextId, user_id := uid, showtime_id := cs.showtimeId,
    seats := cs.selectedSeats,
    total_price := sh.ticket_price * (cs.selectedSeats.length : ℚ),
    booking_status := "confirmed" }

/-- The `seatReservations` array built by `handleBooking`: one
`booked_seats` row per selected seat, referencing the new booking. -/
def reservationsFor (store : Store) (cs : ClientState) : List BookedSeat :=
  cs.selectedSeats.map (fun seatLabel =>
    { showtime_id := cs.showtimeId, seat_label := seatLabel,
      booking_id := store.nextId })

/-- The body of `handleBooking` past its guard (the `try` block): insert
the `bookings` row — two independent statements, so this insert is final
whatever happens next — then attempt the `booked_seats` batch.  A batch
rejection throws into the `catch` block with the booking row still
persisted; on success the client navigates to `/bookings`. -/
def submitBooking (store : Store) (uid : String) (sh : Showtime) (cs : ClientState) :
    Store × ClientState × BookOutcome :=
  let store1 : Store :=
    { store with bookings := store.bookings ++ [bookingRowFor store uid sh cs],
                 nextId := store.nextId + 1 }
  match insertBookedSeats store1 (reservationsFor store cs) with
  | none => (store1, cs, .failed)
  | some store2 => (store2, { cs with route := "/bookings" }, .success)

/-- `handleBooking` from `SeatSelection.tsx`, as a transition on
(store, client state): the silent guard `if (!user || !showtime ||
selectedSeats.length === 0) return;` followed by `submitBooking`.
`selectedSeats` is not written on any path. -/
def handleBooking (store : Store) (cs : ClientState) : Store × ClientState × BookOutcome :=
  match cs.user, cs.showtime with
  | none, _ => (store, cs, .ignored)
  | some _, none => (store, cs, .ignored)
  | some uid, some sh =>
    if cs.selectedSeats.length = 0 then (store, cs, .ignored)
    else submitBooking store uid sh cs

/-- The reserved-seat labels of a showtime as fetched by
`fetchShowtimeAndSeats`: `select seat_label from booked_seats where
showtime_id = ...`. -/
def bookedLabelsFor (store : Store) (sid : String) : List String :=
  (store.booked_seats.filter (fun b => b.showtime_id == sid)).map (fun b => b.seat_label)

/-- `fetchShowtimeAndSeats` from `SeatSelection.tsx` (success path): set
the showtime, rebuild the seat array from the hall layout and the current
`booked_seats` rows, clear `loading`.  It writes no other state variable;
in particular `selectedSeats` is untouched.  This is also the function
the `booked_seats` change subscription re-runs. -/
def fetchShowtimeAndSeats (store : Store) (cs : ClientState) (sh : Showtime)
    (layout : List RowDesc) : ClientState :=
  { cs with
    showtime := some sh
    seats := expandSeats (bookedLabelsFor store cs.showtimeId) layout
    loading := false }

/-- The (row, column) address of a generated seat. -/
def Seat.rowCol (s : Seat) : String × Nat := (s.row, s.col)

/-! Concrete scenario data used by witnesses and counterexamples -/

/-- A showtime at ticket price 10, as in the spec's worked scenario. -/
def demoShowtime : Showtime := { id := "show1", ticket_price := 10 }

/-- A client on the seat-selection page for `demoShowtime`, with the given
user identity and pending selection. -/
def demoClient (u : Option String) (sel : List String) : ClientState :=
  { user := u, showtimeId := "show1", showtime := some demoShowtime,
    seats := [], selectedSeats := sel, loading := false, route := "/seats" }

/-- A store with no rows at all. -/
def emptyStore : Store := { bookings := [], booked_seats := [], nextId := 0 }

/-- A store in which seat `A1` of `show1` is already reserved by an
earlier booking. -/
def storeA1Taken : Store :=
  { bookings := [{ id := 0, user_id := "bob", showtime_id := "show1",
                   seats := ["A1"], total_price := 10,
                   booking_status := "confirmed" }],
    booked_seats := [{ showtime_id := "show1", seat_label := "A1", booking_id := 0 }],
    nextId := 1 }

/-- Client Alice submitting seats `A1`,`A2` against the empty store. -/
def runA : Store × ClientState × BookOutcome :=
  handleBooking emptyStore (demoClient (some "alice") ["A1", "A2"])

/-- Client Bob then submitting the overlapping set `A1`,`B1` against the
store left by `runA` — the store-serialized view of the race. -/
def runB : Store × ClientState × BookOutcome :=
  handleBooking runA.1 (demoClient (some "bob") ["A1", "B1"])

end FlickrFix

namespace FlickrFix

/-! Claims -/

/-- Claim C1. The claim says a booking submission whose requested set meets
an already-reserved seat fails as a whole with the store unchanged.  The
code violates this: `handleBooking` inserts the `bookings` row first and
only then attempts the `booked_seats` batch, and the two inserts are
independent statements, so when the batch is rejected by
`UNIQUE(showtime_id, seat_label)` the already-inserted Booking row stays.
Evaluated at the failing input: seat `A1` already reserved, Alice submits
`{A1}` — the outcome is the failure toast, no reservation record is
created, yet an orphan Booking row for Alice has been persisted. -/
theorem C1_conflict_persists_orphan_booking :
    (handleBooking storeA1Taken (demoClient (some "alice") ["A1"])).2.2
      = BookOutcome.failed ∧
    (handleBooking storeA1Taken (demoClient (some "alice") ["A1"])).1.booked_seats
      = storeA1Taken.booked_seats ∧
    (handleBooking storeA1Taken (demoClient (some "alice") ["A1"])).1.bookings
      = storeA1Taken.bookings ++
        [{ id := 1, user_id := "alice", showtime_id := "show1", seats := ["A1"],
           total_price := 10, booking_status := "confirmed" }] := by
  refine ⟨by decide, by decide, ?_⟩
  simp [handleBooking, submitBooking, bookingRowFor, reservationsFor,
    storeA1Taken, demoClient, demoShowtime, insertBookedSeats, batchOk, seatTaken]

/-- Claim C2. Two overlapping submissions against the same showtime,
serialized by the store: Alice books `{A1, A2}` and succeeds; Bob then
submits `{A1, B1}`.  The uniqueness constraint makes Bob's whole
`booked_seats` batch fail, so at most one submission holds any contested
seat — but Bob's run does NOT create zero rows: his orphan `bookings` row
is persisted (the bookings table grows by one), refuting the "creates
zero rows" half of the claim. -/
theorem C2_contested_seat_sequentialized :
    runA.2.2 = BookOutcome.success ∧
    runB.2.2 = BookOutcome.failed ∧
    runB.1.booked_seats = runA.1.booked_seats ∧
    runB.1.bookings.length = runA.1.bookings.length + 1 := by
  refine ⟨?_, ?_, ?_, ?_⟩ <;>
    simp [runA, runB, handleBooking, submitBooking, bookingRowFor, reservationsFor,
      emptyStore, demoClient, demoShowtime, insertBookedSeats, batchOk, seatTaken]

/-- Claim C3. The claim says every seat gets exactly one of the three
states and a reserved seat is always `booked`, never `selected`.  The
render's class conditions violate this: the selected-class condition
`selectedSeats.includes(seat.label)` is not guarded by `!seat.isBooked`,
so a seat that is reserved while still in the pending selection
(reachable, since refetch never prunes the selection) satisfies both the
booked-class and the selected-class conditions — two states at once, and
the `selected` marker is applied to a reserved seat. -/
theorem C3_booked_and_selected_seat_flags :
    seatStateFlags true ["A1"] "A1" = (true, false, true) := by
  decide

/-- The seats of one row carry the row's label, its type tag, the columns
`1..cols` in order, and the concatenated label. -/
lemma rowSeats_map_rowCol (booked : List String) (r : RowDesc) :
    (rowSeats booked r).map Seat.rowCol
      = (List.range r.cols.toNat).map (fun i => (r.row, i + 1)) := by
  simp only [rowSeats, List.map_map]
  rfl

lemma expandSeats_cons (booked : List String) (r : RowDesc) (rest : List RowDesc) :
    expandSeats booked (r :: rest) = rowSeats booked r ++ expandSeats booked rest := by
  simp [expandSeats]

lemma mem_rowSeats_row (booked : List String) (r : RowDesc) (s : Seat)
    (hs : s ∈ rowSeats booked r) : s.row = r.row := by
  simp only [rowSeats, List.mem_map, List.mem_range] at hs
  obtain ⟨i, _, rfl⟩ := hs
  rfl

lemma mem_expandSeats_row (booked : List String) (layout : List RowDesc) (s : Seat)
    (hs : s ∈ expandSeats booked layout) : s.row ∈ layout.map RowDesc.row := by
  induction layout with
  | nil => simp [expandSeats] at hs
  | cons r rest ih =>
    rw [expandSeats_cons, List.mem_append] at hs
    rcases hs with hs | hs
    · simp [mem_rowSeats_row booked r s hs]
    · simp [ih hs]

/-- The (row, column) addresses generated for a layout with pairwise
distinct row labels are pairwise distinct. -/
lemma expandSeats_rowCol_nodup (booked : List String) (layout : List RowDesc)
    (hrows : (layout.map RowDesc.row).Nodup) :
    ((expandSeats booked layout).map Seat.rowCol).Nodup := by
  induction layout with
  | nil => simp [expandSeats]
  | cons r rest ih =>
    rw [List.map_cons, List.nodup_cons] at hrows
    rw [expandSeats_cons, List.map_append, List.nodup_append]
    refine ⟨?_, ih hrows.2, ?_⟩
    · rw [rowSeats_map_rowCol]
      exact List.Nodup.map (fun a b hab => by
        simpa using congrArg Prod.snd hab) (List.nodup_range _)
    · intro p hp hq
      simp only [List.mem_map] at hp hq
      obtain ⟨s, hs, rfl⟩ := hp
      obtain ⟨t, ht, hts⟩ := hq
      have hsr : s.row = r.row := mem_rowSeats_row booked r s hs
      have htr : t.row ∈ rest.map RowDesc.row := mem_expandSeats_row booked rest t ht
      have hfst : t.row = s.row := congrArg Prod.fst hts
      rw [hfst, hsr] at htr
      exact hrows.1 htr

/-- Claim C5 counterexample. The claim promises a distinct identifier for
every generated seat, for every layout.  A layout whose row labels repeat
refutes it: two one-seat rows both labelled `A` yield the identifier `A1`
twice. -/
theorem C5_duplicate_labels_counterexample :
    ((expandSeats [] [{ row := "A", cols := 1, type := some "standard" },
                      { row := "A", cols := 1, type := some "standard" }]).map Seat.label)
      = ["A1", "A1"] ∧
    ¬ ((expandSeats [] [{ row := "A", cols := 1, type := some "standard" },
                        { row := "A", cols := 1, type := some "standard" }]).map
        Seat.label).Nodup := by
  constructor
  · rfl
  · decide

/-- Claim C5 (amended). For every hall layout the resolver produces exactly
`sum (cols)` seat entries (a non-positive count contributing zero),
every entry's identifier is its row label concatenated with its 1-based
column number, each row contributes exactly the columns `1..cols` in
declaration order, and — provided the layout's row labels are pairwise
distinct — the (row, column) addresses of the produced seats are pairwise
distinct. -/
theorem C5_layout_expansion (booked : List String) (layout : List RowDesc)
    (hrows : (layout.map RowDesc.row).Nodup) :
    (expandSeats booked layout).length = (layout.map (fun r => r.cols.toNat)).sum ∧
    (∀ s ∈ expandSeats booked layout, s.label = s.row ++ toString s.col) ∧
    (∀ r : RowDesc, (rowSeats booked r).map Seat.rowCol
      = (List.range r.cols.toNat).map (fun i => (r.row, i + 1))) ∧
    ((expandSeats booked layout).map Seat.rowCol).Nodup := by
  refine ⟨?_, ?_, rowSeats_map_rowCol booked, expandSeats_rowCol_nodup booked layout hrows⟩
  · rw [expandSeats, List.length_flatten, List.map_map]
    exact congrArg List.sum (List.map_congr_left (fun r _ => by simp [rowSeats]))
  · intro s hs
    simp only [expandSeats, List.mem_flatten, List.mem_map] at hs
    obtain ⟨l, ⟨r, _, rfl⟩, hsl⟩ := hs
    simp only [rowSeats, List.mem_map, List.mem_range] at hsl
    obtain ⟨i, _, rfl⟩ := hsl
    rfl

/-- Claim C5 witness. The spec's worked scenario: rows `A` and `B` of two
standard seats each expand to the four distinct seats `A1 A2 B1 B2`. -/
theorem C5_layout_expansion_witness :
    (expandSeats [] [{ row := "A", cols := 2, type := some "standard" },
                     { row := "B", cols := 2, type := some "standard" }]).length
      = (([{ row := "A", cols := 2, type := some "standard" },
           { row := "B", cols := 2, type := some "standard" }] : List RowDesc).map
          (fun r => r.cols.toNat)).sum ∧
    (∀ s ∈ expandSeats [] [{ row := "A", cols := 2, type := some "standard" },
                           { row := "B", cols := 2, type := some "standard" }],
      s.label = s.row ++ toString s.col) ∧
    (∀ r : RowDesc, (rowSeats [] r).map Seat.rowCol
      = (List.range r.cols.toNat).map (fun i => (r.row, i + 1))) ∧
    ((expandSeats [] [{ row := "A", cols := 2, type := some "standard" },
                      { row := "B", cols := 2, type := some "standard" }]).map
        Seat.rowCol).Nodup :=
  C5_layout_expansion []
    [{ row := "A", cols := 2, type := some "standard" },
     { row := "B", cols := 2, type := some "standard" }] (by decide)

/-- Claim C6 counterexample. The claim says the resolver fails with
`MalformedLayoutError` on a row with a non-positive seat count or a
missing type tag.  The code performs no validation at all: on the
malformed layouts below it succeeds normally, returning an empty seat
list for non-positive counts and carrying a missing type through. -/
theorem C6_no_validation_counterexample :
    expandSeats [] [{ row := "A", cols := 0, type := none }] = [] ∧
    expandSeats [] [{ row := "A", cols := -3, type := some "standard" }] = [] ∧
    (expandSeats [] [{ row := "A", cols := 1, type := none }]).map Seat.type
      = [none] := by
  decide

/-- Claim C6 (amended). The resolver never fails: it is a total function of
the layout, a row descriptor with non-positive seat count simply
contributes zero seats, and a missing type tag is carried unchanged onto
every seat the row produces. -/
theorem C6_no_validation (booked : List String) (r : RowDesc) :
    (r.cols ≤ 0 → rowSeats booked r = []) ∧
    (∀ s ∈ rowSeats booked r, s.type = r.type) := by
  constructor
  · intro hc
    have hz : r.cols.toNat = 0 := Int.toNat_of_nonpos hc
    simp [rowSeats, hz]
  · intro s hs
    simp only [rowSeats, List.mem_map, List.mem_range] at hs
    obtain ⟨i, _, rfl⟩ := hs
    rfl

/-- Claim C6 witness. The amended theorem at the concrete malformed row
`{row := "A", cols := 0, type := none}`. -/
theorem C6_no_validation_witness :
    rowSeats [] { row := "A", cols := 0, type := none } = [] :=
  (C6_no_validation [] { row := "A", cols := 0, type := none }).1 (by decide)

/-! Structural lemmas about the booking transition -/

/-- A successful `booked_seats` batch insert appends exactly its rows. -/
lemma insertBookedSeats_eq_some (st store2 : Store) (rows : List BookedSeat)
    (h : insertBookedSeats st rows = some store2) :
    store2 = { st with booked_seats := st.booked_seats ++ rows } := by
  unfold insertBookedSeats at h
  split at h
  · exact (Option.some.inj h).symm
  · exact absurd h (by simp)

/-- Past the guard, a submission always appends exactly the new booking
row to `bookings`, and either fails with `booked_seats` and the client
state untouched, or succeeds with exactly the reservation rows appended
and the client navigated to `/bookings`. -/
lemma submitBooking_cases (store : Store) (uid : String) (sh : Showtime) (cs : ClientState) :
    (submitBooking store uid sh cs).1.bookings
      = store.bookings ++ [bookingRowFor store uid sh cs] ∧
    (((submitBooking store uid sh cs).2.2 = BookOutcome.failed ∧
        (submitBooking store uid sh cs).2.1 = cs ∧
        (submitBooking store uid sh cs).1.booked_seats = store.booked_seats) ∨
     ((submitBooking store uid sh cs).2.2 = BookOutcome.success ∧
        (submitBooking store uid sh cs).2.1 = { cs with route := "/bookings" } ∧
        (submitBooking store uid sh cs).1.booked_seats
          = store.booked_seats ++ reservationsFor store cs)) := by
  simp only [submitBooking]
  split
  · simp
  · next store2 hins =>
    have h2 := insertBookedSeats_eq_some _ store2 _ hins
    subst h2
    simp

/-- The silent guard of `handleBooking`: with no user, no showtime, or an
empty selection, nothing at all happens. -/
lemma handleBooking_guard (store : Store) (cs : ClientState)
    (h : cs.user = none ∨ cs.showtime = none ∨ cs.selectedSeats = []) :
    handleBooking store cs = (store, cs, BookOutcome.ignored) := by
  unfold handleBooking
  rcases h with h | h | h
  · rw [h]
  · rw [h]
    cases cs.user <;> rfl
  · cases hcu : cs.user with
    | none => rfl
    | some uid =>
      cases hcs : cs.showtime with
      | none => rfl
      | some sh => simp [h]

/-- Past the guard, `handleBooking` is exactly `submitBooking`. -/
lemma handleBooking_eq_submit (store : Store) (cs : ClientState) (uid : String)
    (sh : Showtime) (hu : cs.user = some uid) (hsh : cs.showtime = some sh)
    (hsel : cs.selectedSeats ≠ []) :
    handleBooking store cs = submitBooking store uid sh cs := by
  unfold handleBooking
  rw [hu, hsh]
  simp [List.length_eq_zero, hsel]

/-- Claim C4. Every successful Reservation Transaction produces a Booking
whose `seats` list has identical membership to the set of Reservation
Records referencing it (they are in fact the same list of labels), and
whose `total_price` is the showtime's ticket price times the number of
requested seats.  The freshness hypothesis says the store's id generator
has not already handed out the id it is about to use — true of any store
whose rows came from this transition. -/
theorem C4_success_booking_reservations_consistent
    (store : Store) (cs : ClientState) (uid : String) (sh : Showtime)
    (store' : Store) (cs' : ClientState)
    (hu : cs.user = some uid) (hsh : cs.showtime = some sh)
    (hfresh : ∀ rrec ∈ store.booked_seats, rrec.booking_id ≠ store.nextId)
    (h : handleBooking store cs = (store', cs', BookOutcome.success)) :
    ∃ b : Booking,
      store'.bookings = store.bookings ++ [b] ∧
      b.seats = cs.selectedSeats ∧
      b.total_price = sh.ticket_price * (cs.selectedSeats.length : ℚ) ∧
      (store'.booked_seats.filter (fun rrec => rrec.booking_id == b.id)).map
          (fun rrec => rrec.seat_label) = b.seats := by
  have hsel : cs.selectedSeats ≠ [] := by
    intro h0
    rw [handleBooking_guard store cs (Or.inr (Or.inr h0))] at h
    exact absurd (congrArg (fun p => p.2.2) h) (by simp)
  rw [handleBooking_eq_submit store cs uid sh hu hsh hsel] at h
  obtain ⟨hbk, hc⟩ := submitBooking_cases store uid sh cs
  have hst : (submitBooking store uid sh cs).1 = store' := congrArg Prod.fst h
  rcases hc with ⟨hf, _, _⟩ | ⟨_, _, hbs⟩
  · rw [h] at hf
    exact absurd hf (by simp)
  · refine ⟨bookingRowFor store uid sh cs, by rw [← hst, hbk], rfl, rfl, ?_⟩
    rw [← hst, hbs, List.filter_append]
    have h1 : store.booked_seats.filter
        (fun rrec => rrec.booking_id == (bookingRowFor store uid sh cs).id) = [] :=
      List.filter_eq_nil_iff.mpr (fun a ha => by
        simpa using hfresh a ha)
    have h2 : (reservationsFor store cs).filter
        (fun rrec => rrec.booking_id == (bookingRowFor store uid sh cs).id)
          = reservationsFor store cs :=
      List.filter_eq_self.mpr (fun a ha => by
        simp only [reservationsFor, List.mem_map] at ha
        obtain ⟨l, _, rfl⟩ := ha
        simp [bookingRowFor])
    rw [h1, h2, List.nil_append]
    simp only [reservationsFor, bookingRowFor, List.map_map]
    exact List.map_id cs.selectedSeats

/-- Claim C4 witness. The theorem applied to Alice booking the two seats
`A1`,`B2` at price 10 against the empty store. -/
theorem C4_success_witness :
    ∃ b : Booking,
      (handleBooking emptyStore (demoClient (some "alice") ["A1", "B2"])).1.bookings
        = emptyStore.bookings ++ [b] ∧
      b.seats = (demoClient (some "alice") ["A1", "B2"]).selectedSeats ∧
      b.total_price = demoShowtime.ticket_price *
        (((demoClient (some "alice") ["A1", "B2"]).selectedSeats.length : ℕ) : ℚ) ∧
      ((handleBooking emptyStore (demoClient (some "alice") ["A1", "B2"])).1.booked_seats.filter
          (fun rrec => rrec.booking_id == b.id)).map (fun rrec => rrec.seat_label)
        = b.seats :=
  C4_success_booking_reservations_consistent emptyStore
    (demoClient (some "alice") ["A1", "B2"]) "alice" demoShowtime
    (handleBooking emptyStore (demoClient (some "alice") ["A1", "B2"])).1
    (handleBooking emptyStore (demoClient (some "alice") ["A1", "B2"])).2.1
    rfl rfl (by simp [emptyStore]) rfl

/-- Claim C7 counterexample. The claim says a submission with no user
identity fails with `AuthenticationRequiredError` and one with zero
seats fails with `EmptySelectionError`, every failure being surfaced.
The code's guard `if (!user || !showtime || selectedSeats.length === 0)
return;` instead returns silently: the outcome is the silent no-op, not
a surfaced failure. -/
theorem C7_silent_guard_counterexample :
    (handleBooking emptyStore (demoClient none ["A1"])).2.2 = BookOutcome.ignored ∧
    (handleBooking emptyStore (demoClient (some "carol") [])).2.2 = BookOutcome.ignored ∧
    BookOutcome.ignored ≠ BookOutcome.failed := by
  decide

/-- Claim C7 (amended). A submission with no user identity or with zero
requested seats is rejected before reaching the store, but silently: the
guard returns without surfacing any error and the store is untouched.
Every submission that does reach the store ends in a surfaced outcome —
the failure toast or the success toast — so store failures are not
swallowed. -/
theorem C7_guard_silent_and_store_failures_surfaced (store : Store) (cs : ClientState) :
    ((cs.user = none ∨ cs.selectedSeats = []) →
      handleBooking store cs = (store, cs, BookOutcome.ignored)) ∧
    (∀ uid : String, ∀ sh : Showtime,
      cs.user = some uid → cs.showtime = some sh → cs.selectedSeats ≠ [] →
      (handleBooking store cs).2.2 = BookOutcome.failed ∨
      (handleBooking store cs).2.2 = BookOutcome.success) := by
  constructor
  · rintro (h | h)
    · exact handleBooking_guard store cs (Or.inl h)
    · exact handleBooking_guard store cs (Or.inr (Or.inr h))
  · intro uid sh hu hsh hsel
    rw [handleBooking_eq_submit store cs uid sh hu hsh hsel]
    obtain ⟨_, hc⟩ := submitBooking_cases store uid sh cs
    rcases hc with ⟨hf, _, _⟩ | ⟨hs, _, _⟩
    · exact Or.inl hf
    · exact Or.inr hs

/-- Claim C7 witness. The amended theorem at the concrete unauthenticated
submission. -/
theorem C7_guard_silent_witness :
    handleBooking emptyStore (demoClient none ["A1"])
      = (emptyStore, demoClient none ["A1"], BookOutcome.ignored) :=
  (C7_guard_silent_and_store_failures_surfaced emptyStore
    (demoClient none ["A1"])).1 (Or.inl rfl)

/-- Claim C8. `toggleSeat` semantics: toggling a booked seat is a no-op;
toggling a non-booked absent seat appends it; toggling a present seat
removes it and touches no other label; toggling the same non-booked seat
twice restores the original selection's membership; and toggling
preserves freedom from duplicates, so a selection that starts duplicate-
free never contains the same label twice. -/
theorem C8_toggle_selection_semantics (seatLabel : String) (sel : List String) :
    (toggleSeat seatLabel true sel = sel) ∧
    (seatLabel ∉ sel → toggleSeat seatLabel false sel = sel ++ [seatLabel]) ∧
    (seatLabel ∈ sel → seatLabel ∉ toggleSeat seatLabel false sel) ∧
    (∀ y : String, y ≠ seatLabel →
      (y ∈ toggleSeat seatLabel false sel ↔ y ∈ sel)) ∧
    (∀ x : String,
      x ∈ toggleSeat seatLabel false (toggleSeat seatLabel false sel) ↔ x ∈ sel) ∧
    (sel.Nodup → ∀ ib : Bool, (toggleSeat seatLabel ib sel).Nodup) := by
  refine ⟨rfl, ?_, ?_, ?_, ?_, ?_⟩
  · intro habs
    simp [toggleSeat, habs]
  · intro hmem
    simp [toggleSeat, hmem, List.mem_filter]
  · intro y hy
    by_cases hmem : seatLabel ∈ sel
    · simp [toggleSeat, hmem, List.mem_filter, hy]
    · simp [toggleSeat, hmem, hy]
  · intro x
    by_cases hmem : seatLabel ∈ sel
    · have h1 : toggleSeat seatLabel false sel
          = sel.filter (fun s => s ≠ seatLabel) := by
        simp [toggleSeat, hmem]
      have h2 : seatLabel ∉ sel.filter (fun s => s ≠ seatLabel) := by
        simp [List.mem_filter]
      rw [h1]
      have h3 : toggleSeat seatLabel false (sel.filter (fun s => s ≠ seatLabel))
          = sel.filter (fun s => s ≠ seatLabel) ++ [seatLabel] := by
        simp [toggleSeat, h2]
      rw [h3]
      by_cases hx : x = seatLabel
      · subst hx
        simp [hmem]
      · simp [List.mem_filter, hx]
    · have h1 : toggleSeat seatLabel false sel = sel ++ [seatLabel] := by
        simp [toggleSeat, hmem]
      have h2 : seatLabel ∈ sel ++ [seatLabel] := by simp
      have h3 : toggleSeat seatLabel false (sel ++ [seatLabel])
          = (sel ++ [seatLabel]).filter (fun s => s ≠ seatLabel) := by
        simp [toggleSeat, h2]
      rw [h1, h3, List.filter_append]
      by_cases hx : x = seatLabel
      · subst hx
        simp [List.mem_filter, hmem]
      · simp [List.mem_filter, hx]
  · intro hnd ib
    cases ib with
    | true => exact hnd
    | false =>
      by_cases hmem : seatLabel ∈ sel
      · simpa [toggleSeat, hmem] using hnd.filter (fun s => decide (s ≠ seatLabel))
      · simp [toggleSeat, hmem, List.nodup_append, hnd]

/-- Claim C8 witness. The theorem at seat `A1` and selection `[B2]`:
booked toggle is a no-op, non-booked toggle appends. -/
theorem C8_toggle_witness :
    toggleSeat "A1" true ["B2"] = ["B2"] ∧
    toggleSeat "A1" false ["B2"] = ["B2", "A1"] :=
  ⟨(C8_toggle_selection_semantics "A1" ["B2"]).1,
   (C8_toggle_selection_semantics "A1" ["B2"]).2.1 (by decide)⟩

/-- Claim C9 counterexample. The claim says a successful submission clears
the pending selection.  The code never writes `selectedSeats` in
`handleBooking`: on success it navigates to `/bookings` with the
selection still `["A1"]`. -/
theorem C9_success_keeps_selection_counterexample :
    (handleBooking emptyStore (demoClient (some "alice") ["A1"])).2.2
      = BookOutcome.success ∧
    (handleBooking emptyStore (demoClient (some "alice") ["A1"])).2.1.selectedSeats
      = ["A1"] := by
  decide

/-- Claim C9 (amended). When a submitted booking fails, the client state —
the pending selection included — is preserved exactly, so the user can
retry or adjust.  When it succeeds the selection is not cleared in
place: the selection variable keeps its value and the client navigates
to `/bookings`, abandoning the page state instead. -/
theorem C9_selection_after_submission (store : Store) (cs : ClientState) :
    ((handleBooking store cs).2.2 = BookOutcome.failed →
      (handleBooking store cs).2.1 = cs) ∧
    ((handleBooking store cs).2.2 = BookOutcome.success →
      (handleBooking store cs).2.1.selectedSeats = cs.selectedSeats ∧
      (handleBooking store cs).2.1.route = "/bookings") := by
  rcases hu : cs.user with _ | uid
  · rw [handleBooking_guard store cs (Or.inl hu)]
    exact ⟨fun h => (nomatch h), fun h => (nomatch h)⟩
  · rcases hsh : cs.showtime with _ | sh
    · rw [handleBooking_guard store cs (Or.inr (Or.inl hsh))]
      exact ⟨fun h => (nomatch h), fun h => (nomatch h)⟩
    · by_cases hsel : cs.selectedSeats = []
      · rw [handleBooking_guard store cs (Or.inr (Or.inr hsel))]
        exact ⟨fun h => (nomatch h), fun h => (nomatch h)⟩
      · rw [handleBooking_eq_submit store cs uid sh hu hsh hsel]
        obtain ⟨_, hc⟩ := submitBooking_cases store uid sh cs
        rcases hc with ⟨hf, hcs, _⟩ | ⟨hs, hcs, _⟩
        · refine ⟨fun _ => hcs, fun h => ?_⟩
          rw [hf] at h
          cases h
        · refine ⟨fun h => ?_, fun _ => ⟨by rw [hcs], by rw [hcs]⟩⟩
          rw [hs] at h
          cases h

/-- Claim C9 witness. The amended theorem at the concrete conflicted
submission: seat `A1` is already taken, the outcome is the failure
toast, and the client state — selection included — is unchanged. -/
theorem C9_selection_witness :
    (handleBooking storeA1Taken (demoClient (some "alice") ["A1"])).2.1
      = demoClient (some "alice") ["A1"] :=
  (C9_selection_after_submission storeA1Taken
    (demoClient (some "alice") ["A1"])).1 (by decide)

/-- Claim C10 counterexample. The claim says the refetch writes only the
seats and showtime state.  It also writes the loading flag: `finally {
setLoading(false) }` runs on every fetch, so a client whose loading flag
is `true` has it flipped by the refetch. -/
theorem C10_loading_flag_counterexample :
    (fetchShowtimeAndSeats emptyStore
        { demoClient (some "alice") ["A1"] with loading := true } demoShowtime
        [{ row := "A", cols := 1, type := some "standard" }]).loading = false ∧
    ({ demoClient (some "alice") ["A1"] with loading := true } : ClientState).loading
      = true := by
  decide

/-- Claim C10 (amended). Re-fetching — including the refetch triggered by
every `booked_seats` change notification — writes only the seats, the
showtime, and the loading flag, and never modifies the pending
selection (nor the user, the showtime id, or the route); consequently a
seat that becomes reserved while selected remains selected, and the next
submission's booking row carries the full pending selection, that seat
included. -/
theorem C10_refetch_preserves_selection (store store2 : Store) (cs : ClientState)
    (sh : Showtime) (layout : List RowDesc) (uid : String)
    (hu : cs.user = some uid) (hsel : cs.selectedSeats ≠ []) :
    (fetchShowtimeAndSeats store cs sh layout).selectedSeats = cs.selectedSeats ∧
    (fetchShowtimeAndSeats store cs sh layout).user = cs.user ∧
    (fetchShowtimeAndSeats store cs sh layout).showtimeId = cs.showtimeId ∧
    (fetchShowtimeAndSeats store cs sh layout).route = cs.route ∧
    (fetchShowtimeAndSeats store cs sh layout).showtime = some sh ∧
    (fetchShowtimeAndSeats store cs sh layout).seats
      = expandSeats (bookedLabelsFor store cs.showtimeId) layout ∧
    (fetchShowtimeAndSeats store cs sh layout).loading = false ∧
    ∃ b : Booking,
      (handleBooking store2 (fetchShowtimeAndSeats store cs sh layout)).1.bookings
        = store2.bookings ++ [b] ∧
      b.seats = cs.selectedSeats := by
  refine ⟨rfl, rfl, rfl, rfl, rfl, rfl, rfl, ?_⟩
  have hu2 : (fetchShowtimeAndSeats store cs sh layout).user = some uid := hu
  have hsh2 : (fetchShowtimeAndSeats store cs sh layout).showtime = some sh := rfl
  have hsel2 : (fetchShowtimeAndSeats store cs sh layout).selectedSeats ≠ [] := hsel
  rw [handleBooking_eq_submit store2 (fetchShowtimeAndSeats store cs sh layout)
    uid sh hu2 hsh2 hsel2]
  obtain ⟨hbk, _⟩ :=
    submitBooking_cases store2 uid sh (fetchShowtimeAndSeats store cs sh layout)
  exact ⟨bookingRowFor store2 uid sh (fetchShowtimeAndSeats store cs sh layout), hbk, rfl⟩

/-- Claim C10 witness. The amended theorem at the concrete race: Alice has
`A1` selected, the refetch (after Bob booked `A1`) marks it booked but
leaves it selected, and her next submission's booking row still requests
`A1`. -/
theorem C10_refetch_witness :
    (fetchShowtimeAndSeats storeA1Taken (demoClient (some "alice") ["A1"])
        demoShowtime [{ row := "A", cols := 1, type := some "standard" }]).selectedSeats
      = (demoClient (some "alice") ["A1"]).selectedSeats ∧
    (fetchShowtimeAndSeats storeA1Taken (demoClient (some "alice") ["A1"])
        demoShowtime [{ row := "A", cols := 1, type := some "standard" }]).user
      = (demoClient (some "alice") ["A1"]).user ∧
    (fetchShowtimeAndSeats storeA1Taken (demoClient (some "alice") ["A1"])
        demoShowtime [{ row := "A", cols := 1, type := some "standard" }]).showtimeId
      = (demoClient (some "alice") ["A1"]).showtimeId ∧
    (fetchShowtimeAndSeats storeA1Taken (demoClient (some "alice") ["A1"])
        demoShowtime [{ row := "A", cols := 1, type := some "standard" }]).route
      = (demoClient (some "alice") ["A1"]).route ∧
    (fetchShowtimeAndSeats storeA1Taken (demoClient (some "alice") ["A1"])
        demoShowtime [{ row := "A", cols := 1, type := some "standard" }]).showtime
      = some demoShowtime ∧
    (fetchShowtimeAndSeats storeA1Taken (demoClient (some "alice") ["A1"])
        demoShowtime [{ row := "A", cols := 1, type := some "standard" }]).seats
      = expandSeats
          (bookedLabelsFor storeA1Taken (demoClient (some "alice") ["A1"]).showtimeId)
          [{ row := "A", cols := 1, type := some "standard" }] ∧
    (fetchShowtimeAndSeats storeA1Taken (demoClient (some "alice") ["A1"])
        demoShowtime [{ row := "A", cols := 1, type := some "standard" }]).loading
      = false ∧
    ∃ b : Booking,
      (handleBooking storeA1Taken
          (fetchShowtimeAndSeats storeA1Taken (demoClient (some "alice") ["A1"])
            demoShowtime [{ row := "A", cols := 1, type := some "standard" }])).1.bookings
        = storeA1Taken.bookings ++ [b] ∧
      b.seats = (demoClient (some "alice") ["A1"]).selectedSeats :=
  C10_refetch_preserves_selection storeA1Taken storeA1Taken
    (demoClient (some "alice") ["A1"]) demoShowtime
    [{ row := "A", cols := 1, type := some "standard" }] "alice" rfl (by decide)

end FlickrFix
